import Mathlib

/-
Verification development for the Cobolt 06-01 MLD laser driver
(`cobolt06_01mld.py`).

Embedding conventions:
* The serial device is abstracted as an oracle `List String → String`
  mapping the transaction history (every command sent so far, most recent
  last) to the device's reply to the most recent command.  This captures
  arbitrary, history-dependent device behaviour.
* Driver state `S` records the list of commands written to the port and
  whether the port has been closed.  Each method is a function
  `S → Except Err α × S`: errors never roll the state back, mirroring the
  fact that a raised Python exception does not unsend bytes.
* Python exceptions are modelled by `Err` (`assert` failures, `int()` and
  `float()` conversion failures, `RuntimeError`, and the `NameError` and
  `TypeError` raised by two buggy logging statements).
* `print` calls are I/O no-ops, except the two `very_verbose` logging
  statements that themselves raise (modelled explicitly where they occur).
* Python floats are modelled as exact rationals.  `%0.Nf` formatting and
  `round(x, N)` are modelled by exact round-to-nearest on ℚ.  (CPython
  rounds the underlying binary double, breaking exact ties to even; exact
  decimal ties are never binary-representable, so the tie-breaking
  direction is unobservable for actual float inputs.)
* `time.sleep` is a no-op.
* A separate byte-level model (`sendBytes`) covers the framing behaviour of
  `Laser._send`: terminator appending, read-until-terminator, the
  `in_waiting == 0` check and terminator stripping.
-/

/-- Python exceptions that the driver can raise. -/
inductive Err
  | assertionError
  | valueError
  | runtimeError (msg : String)
  | nameError
  | typeError
  | blocked
  deriving DecidableEq, Repr

/-- Driver-visible transport state: the commands written so far (most recent
last) and whether the port has been closed. -/
structure S where
  hist : List String
  closed : Bool
  deriving DecidableEq, Repr

/-- The driver monad: state threading with Python-style exceptions that do
not roll back state. -/
def M (α : Type) : Type := S → Except Err α × S

instance : Monad M where
  pure a := fun s => (Except.ok a, s)
  bind m f := fun s =>
    match m s with
    | (Except.ok a, s₂) => f a s₂
    | (Except.error e, s₂) => (Except.error e, s₂)

theorem M.bind_apply {α β : Type} (m : M α) (f : α → M β) (s : S) :
    (m >>= f) s =
      match m s with
      | (Except.ok a, s₂) => f a s₂
      | (Except.error e, s₂) => (Except.error e, s₂) := rfl

theorem M.bind_ok {α β : Type} {m : M α} {f : α → M β} {s s₂ : S} {a : α}
    (h : m s = (Except.ok a, s₂)) : (m >>= f) s = f a s₂ := by
  rw [M.bind_apply, h]

theorem M.bind_err {α β : Type} {m : M α} {f : α → M β} {s s₂ : S} {e : Err}
    (h : m s = (Except.error e, s₂)) : (m >>= f) s = (Except.error e, s₂) := by
  rw [M.bind_apply, h]

@[simp] theorem M.pure_apply {α : Type} (a : α) (s : S) :
    (pure a : M α) s = (Except.ok a, s) := rfl

/-- Python `raise e`. -/
def pyRaise {α : Type} (e : Err) : M α := fun s => (Except.error e, s)

@[simp] theorem pyRaise_apply {α : Type} (e : Err) (s : S) :
    (pyRaise e : M α) s = (Except.error e, s) := rfl

/-- Python `assert p`: raises `AssertionError` when `p` fails. -/
def pyAssert (p : Prop) [Decidable p] : M Unit := fun s =>
  (if p then Except.ok () else Except.error Err.assertionError, s)

@[simp] theorem pyAssert_apply (p : Prop) [Decidable p] (s : S) :
    pyAssert p s =
      (if p then Except.ok () else Except.error Err.assertionError, s) := rfl

/- ### Decimal parsing (Python `int(...)` / `float(...)` on device replies)

Python's converters also accept exponent notation, underscores, inf/nan;
the device protocol only ever uses plain decimal strings, which is the
fragment modelled here.  Out-of-fragment strings fail to convert, which is
modelled as `ValueError` just as in Python. -/

/-- Is `c` an ASCII decimal digit? -/
def digitChar (c : Char) : Bool := '0' ≤ c && c ≤ '9'

/-- ASCII whitespace (the kinds relevant to this protocol). -/
def spaceChar (c : Char) : Bool := c == ' ' || c == '\t' || c == '\n' || c == '\r'

/-- Strip leading and trailing whitespace, as Python `int`/`float` do. -/
def trimChars (cs : List Char) : List Char :=
  ((cs.dropWhile spaceChar).reverse.dropWhile spaceChar).reverse

/-- Value of a digit string, most significant digit first. -/
def digitsVal (cs : List Char) : Nat :=
  cs.foldl (fun acc c => acc * 10 + (c.toNat - '0'.toNat)) 0

/-- Parse a nonempty all-digit character list. -/
def parseDigits? (cs : List Char) : Option Nat :=
  if !cs.isEmpty && cs.all digitChar then some (digitsVal cs) else none

/-- Model of Python `int(str)` on plain decimal strings. -/
def parseInt? (str : String) : Option Int :=
  match trimChars str.data with
  | '-' :: cs => (parseDigits? cs).map (fun n => -(n : Int))
  | '+' :: cs => (parseDigits? cs).map (fun n => (n : Int))
  | cs => (parseDigits? cs).map (fun n => (n : Int))

/-- Unsigned decimal with an optional fractional part (`"10"`, `"10.5"`,
`"10."`, `".5"`). -/
def parseUnsignedFloat? (cs : List Char) : Option ℚ :=
  let ip := cs.takeWhile (fun c => c != '.')
  let rest := cs.dropWhile (fun c => c != '.')
  match rest with
  | [] => (parseDigits? ip).map (fun n => (n : ℚ))
  | _ :: fp =>
      if ip.isEmpty && fp.isEmpty then none
      else if ip.all digitChar && fp.all digitChar then
        some ((digitsVal (ip ++ fp) : ℚ) / (10 : ℚ) ^ fp.length)
      else none

/-- Model of Python `float(str)` on plain decimal strings. -/
def parseFloat? (str : String) : Option ℚ :=
  match trimChars str.data with
  | '-' :: cs => (parseUnsignedFloat? cs).map (fun q => -q)
  | '+' :: cs => parseUnsignedFloat? cs
  | cs => parseUnsignedFloat? cs

/-- Applying `int(response)`: raises `ValueError` when the reply is not an integer. -/
def pyInt (r : String) : M Int := fun s =>
  match parseInt? r with
  | some n => (Except.ok n, s)
  | none => (Except.error Err.valueError, s)

theorem pyInt_ok {r : String} {n : Int} (s : S) (h : parseInt? r = some n) :
    pyInt r s = (Except.ok n, s) := by simp [pyInt, h]

theorem pyInt_fail {r : String} (s : S) (h : parseInt? r = none) :
    pyInt r s = (Except.error Err.valueError, s) := by simp [pyInt, h]

/-- Applying `float(response)`: raises `ValueError` when the reply is not numeric. -/
def pyFloat (r : String) : M ℚ := fun s =>
  match parseFloat? r with
  | some q => (Except.ok q, s)
  | none => (Except.error Err.valueError, s)

theorem pyFloat_ok {r : String} {q : ℚ} (s : S) (h : parseFloat? r = some q) :
    pyFloat r s = (Except.ok q, s) := by simp [pyFloat, h]

/- ### Decimal formatting (Python `'%0.Nf'` and `round(x, N)`) -/

/-- Left-pad with zeros to `width` characters. -/
def padZeros (width : Nat) (str : String) : String :=
  (List.replicate (width - str.length) '0').asString ++ str

/-- Model of Python `'%0.<prec>f' % q`: fixed-point rendering with exactly
`prec` digits after the point, rounding to nearest. -/
def fmtFixed (prec : Nat) (q : ℚ) : String :=
  let scaled : Int := round (q * (10 : ℚ) ^ prec)
  let sign := if scaled < 0 then "-" else ""
  let m := scaled.natAbs
  if prec = 0 then sign ++ toString m
  else sign ++ toString (m / 10 ^ prec) ++ "." ++
    padZeros prec (toString (m % 10 ^ prec))

/-- Model of Python `round(x, prec)`: round to `prec` decimal places. -/
def roundTo (prec : Nat) (q : ℚ) : ℚ :=
  ((round (q * (10 : ℚ) ^ prec) : ℤ) : ℚ) / (10 : ℚ) ^ prec

/-- Evaluation helper for `round` on concrete rationals. -/
theorem round_rat_eq (x : ℚ) (n : ℤ) (h1 : (n : ℚ) ≤ x + 1 / 2)
    (h2 : x + 1 / 2 < n + 1) : round x = n := by
  rw [round_eq]
  exact Int.floor_eq_iff.mpr ⟨h1, h2⟩

example : round ((1 : ℚ) / 1000 * 10 ^ 4) = 10 :=
  round_rat_eq _ _ (by norm_num) (by norm_num)

example : parseInt? "1" = some 1 := by decide
example : parseInt? "OK" = none := by decide

/- ### The device oracle and the laser handle -/

/-- Abstract device behaviour: the reply to the most recent command, as a
function of the whole command history (most recent command last). -/
def Oracle : Type := List String → String

/-- The `Laser` handle: fields established by `__init__` and used by the
methods (`self.w`, `self.max_power_mW`, `self.verbose`, `self.very_verbose`).
Port opening and the model-number identity check happen before any state
covered by the claims, so the handle is taken as given. -/
structure Laser where
  w : Int
  max_power_mW : ℚ
  verbose : Bool
  very_verbose : Bool

/-- Model of `Laser._send` at command level: write one command, receive the oracle's
reply.  (Framing, the `in_waiting` check and terminator stripping are
modelled at byte level by `sendBytes` below.) -/
def Laser.send (L : Laser) (ocl : Oracle) (cmd : String) : M String := fun s =>
  (Except.ok (ocl (s.hist ++ [cmd])), { s with hist := s.hist ++ [cmd] })

theorem Laser.send_apply (L : Laser) (ocl : Oracle) (cmd : String) (s : S) :
    L.send ocl cmd s =
      (Except.ok (ocl (s.hist ++ [cmd])), { s with hist := s.hist ++ [cmd] }) := rfl

/-- Model of `Laser.get_on_off_state`: `l?` query, reply must be 0 or 1. -/
def Laser.get_on_off_state (L : Laser) (ocl : Oracle) : M String := do
  let r ← L.send ocl "l?"
  let code ← pyInt r
  pyAssert (code ∈ ([0, 1] : List Int))
  pure (if code = 0 then "OFF" else "ON")

/-- Model of `Laser.is_interlock_open`: `ilk?` query, reply must be 0 or 1.  The
`very_verbose` log statement applies a format string with one conversion
specifier to a two-element tuple, which raises `TypeError`. -/
def Laser.is_interlock_open (L : Laser) (ocl : Oracle) : M Int := do
  let r ← L.send ocl "ilk?"
  let is_open ← pyInt r
  pyAssert (is_open ∈ ([0, 1] : List Int))
  if L.very_verbose then pyRaise Err.typeError
  else pure is_open

/-- Model of `Laser.run_autostart`: interlock precheck, `@cob1`, settle delay
(a no-op here), then confirm emission is ON. -/
def Laser.run_autostart (L : Laser) (ocl : Oracle) : M Unit := do
  let ilk ← L.is_interlock_open ocl
  if ilk ≠ 0 then
    pyRaise (Err.runtimeError "Could not turn on laser diode")
  else do
    let answer ← L.send ocl "@cob1"
    if answer ≠ "OK" then
      pyRaise (Err.runtimeError
        ("Unable to autostart Cobolt " ++ toString L.w ++ " laser"))
    else do
      let st ← L.get_on_off_state ocl
      pyAssert (st = "ON")

/-- Model of `Laser.turn_on`: interlock precheck, `l1`, then confirm emission is ON. -/
def Laser.turn_on (L : Laser) (ocl : Oracle) : M Unit := do
  let ilk ← L.is_interlock_open ocl
  if ilk ≠ 0 then
    pyRaise (Err.runtimeError "Could not turn on laser diode")
  else do
    let answer ← L.send ocl "l1"
    if answer ≠ "OK" then
      pyRaise (Err.runtimeError "Could not turn on laser diode")
    else do
      let st ← L.get_on_off_state ocl
      pyAssert (st = "ON")

/-- Model of `Laser.turn_off`: `l0`, then confirm emission is OFF. -/
def Laser.turn_off (L : Laser) (ocl : Oracle) : M Unit := do
  let answer ← L.send ocl "l0"
  if answer ≠ "OK" then
    pyRaise (Err.runtimeError "Could not disable laser emission")
  else do
    let st ← L.get_on_off_state ocl
    pyAssert (st = "OFF")

/-- Device state name for a `gom?` reply code (the dict in `get_state`). -/
def stateName (code : Int) : String :=
  if code = 0 then "Off"
  else if code = 1 then "Waiting for key"
  else if code = 2 then "Continuous"
  else if code = 3 then "On/Off Modulation"
  else if code = 4 then "Modulation"
  else if code = 5 then "Fault"
  else "Aborted"

/-- Model of `Laser.get_state`: `gom?` query, reply must be 0–6.  The `very_verbose`
log statement references the undefined name `mode`, which raises
`NameError`. -/
def Laser.get_state (L : Laser) (ocl : Oracle) : M String := do
  let r ← L.send ocl "gom?"
  let code ← pyInt r
  pyAssert (code ∈ ([0, 1, 2, 3, 4, 5, 6] : List Int))
  let state := stateName code
  if L.very_verbose then pyRaise Err.nameError
  else pure state

/-- Python `s[1:]` on a string. -/
def pyTail (str : String) : String := String.mk (str.data.drop 1)

/-- The `mode2command` dict of `set_mode`: `cp` is constant power, `em` is
analog/digital modulation. -/
def mode2command (mode : String) : String :=
  if mode = "continuous" then "cp" else "em"

/-- Model of `Laser.set_mode`: send `cp`/`em`; when emission is reported ON, confirm
that `get_state()[1:] == mode[1:]` (the `[1:]` is the source's way of
ignoring the capitalisation difference). -/
def Laser.set_mode (L : Laser) (ocl : Oracle) (mode : String) : M Unit := do
  pyAssert (mode ∈ (["continuous", "modulation"] : List String))
  let answer ← L.send ocl (mode2command mode)
  if answer ≠ "OK" then
    pyRaise (Err.runtimeError
      ("Unable to set mode on Cobolt " ++ toString L.w ++ " laser"))
  else do
    let onoff ← L.get_on_off_state ocl
    if onoff = "ON" then do
      let st ← L.get_state ocl
      pyAssert (pyTail st = pyTail mode)
    else pure ()

/-- Model of `Laser.get_digital_modulation_enable_state`: `gdmes?`, reply 0 or 1. -/
def Laser.get_digital_modulation_enable_state (L : Laser) (ocl : Oracle) :
    M Int := do
  let r ← L.send ocl "gdmes?"
  let enabled ← pyInt r
  pyAssert (enabled ∈ ([0, 1] : List Int))
  pure enabled

/-- Model of `Laser.set_digital_modulation_enable_state`: `sdmes <0|1>`, then read the
flag back and require it to equal the requested value.  (The source's
`assert enabled in [True, False]` is vacuous under the `Bool` typing.) -/
def Laser.set_digital_modulation_enable_state (L : Laser) (ocl : Oracle)
    (enabled : Bool) : M Unit := do
  let answer ← L.send ocl ("sdmes " ++ (if enabled then "1" else "0"))
  if answer ≠ "OK" then
    pyRaise (Err.runtimeError "Unable to change digital modulation")
  else do
    let got ← L.get_digital_modulation_enable_state ocl
    pyAssert ((if enabled then (1 : Int) else 0) = got)

/-- Model of `Laser.get_analog_modulation_enable_state`: `games?`, reply 0 or 1. -/
def Laser.get_analog_modulation_enable_state (L : Laser) (ocl : Oracle) :
    M Int := do
  let r ← L.send ocl "games?"
  let enabled ← pyInt r
  pyAssert (enabled ∈ ([0, 1] : List Int))
  pure enabled

/-- Model of `Laser.set_analog_modulation_enable_state`: `sames <0|1>`, then read the
flag back and require it to equal the requested value. -/
def Laser.set_analog_modulation_enable_state (L : Laser) (ocl : Oracle)
    (enabled : Bool) : M Unit := do
  let answer ← L.send ocl ("sames " ++ (if enabled then "1" else "0"))
  if answer ≠ "OK" then
    pyRaise (Err.runtimeError "Unable to change analog modulation")
  else do
    let got ← L.get_analog_modulation_enable_state ocl
    pyAssert ((if enabled then (1 : Int) else 0) = got)

/-- Model of `Laser.get_power_setpoint`: `p?` returns watts; converted to mW. -/
def Laser.get_power_setpoint (L : Laser) (ocl : Oracle) : M ℚ := do
  let r ← L.send ocl "p?"
  let w ← pyFloat r
  pure (w * 1000)

/-- Model of `Laser.set_power_setpoint`: range-check locally, send `p <watts>`
(mW-to-W conversion, `%0.4f`), then read the set point back and require
agreement to 4 decimal places. -/
def Laser.set_power_setpoint (L : Laser) (ocl : Oracle) (power_mW : ℚ) :
    M Unit := do
  pyAssert (0 < power_mW ∧ power_mW ≤ L.max_power_mW)
  let answer ← L.send ocl ("p " ++ fmtFixed 4 (power_mW / 1000))
  if answer ≠ "OK" then
    pyRaise (Err.runtimeError
      ("Unable to update power on " ++ toString L.w ++ " laser"))
  else do
    let got ← L.get_power_setpoint ocl
    pyAssert (roundTo 4 power_mW = roundTo 4 got)

/-- Model of `Laser.get_modulation_power_setpoint`: `glmp?` returns mW directly. -/
def Laser.get_modulation_power_setpoint (L : Laser) (ocl : Oracle) : M ℚ := do
  let r ← L.send ocl "glmp?"
  let mw ← pyFloat r
  pure mw

/-- Model of `Laser.set_modulation_power_setpoint`: range-check locally, send
`slmp <mW>` (`%0.1f`, already in mW), then read back and require agreement
to 4 decimal places. -/
def Laser.set_modulation_power_setpoint (L : Laser) (ocl : Oracle)
    (power_mW : ℚ) : M Unit := do
  pyAssert (0 < power_mW ∧ power_mW ≤ L.max_power_mW)
  let answer ← L.send ocl ("slmp " ++ fmtFixed 1 power_mW)
  if answer ≠ "OK" then
    pyRaise (Err.runtimeError
      ("Unable to update power on " ++ toString L.w ++ " laser"))
  else do
    let got ← L.get_modulation_power_setpoint ocl
    pyAssert (roundTo 4 power_mW = roundTo 4 got)

/-- Fault name for an `f?` reply (the dict in `get_fault`). -/
def faultName (code : String) : String :=
  if code = "0" then "no errors"
  else if code = "1" then "temperature error"
  else if code = "3" then "interlock error"
  else "constant power time out"

/-- Model of `Laser.get_fault`: `f?` reply must be one of `0`, `1`, `3`, `4`.  The
decoded fault name is only used for logging; the function returns `None`. -/
def Laser.get_fault (L : Laser) (ocl : Oracle) : M Unit := do
  let code ← L.send ocl "f?"
  pyAssert (code ∈ (["0", "1", "3", "4"] : List String))
  let _fault := faultName code
  pure ()

/-- Model of `Laser.clear_fault`: `cf`, acknowledgement must be `OK`. -/
def Laser.clear_fault (L : Laser) (ocl : Oracle) : M Unit := do
  let answer ← L.send ocl "cf"
  pyAssert (answer = "OK")

/-- The `if digital_mod_enabled is not None:` step of `configure`. -/
def Laser.digitalFlagStep (L : Laser) (ocl : Oracle) :
    Option Bool → M Unit
  | some en => L.set_digital_modulation_enable_state ocl en
  | none => pure ()

/-- The `if analog_mod_enabled is not None:` step of `configure`. -/
def Laser.analogFlagStep (L : Laser) (ocl : Oracle) :
    Option Bool → M Unit
  | some en => L.set_analog_modulation_enable_state ocl en
  | none => pure ()

/-- The `if mode == 'continuous': ... elif mode == 'modulation': ...` step of
`configure` (no `else` branch in the source: other modes set no power). -/
def Laser.powerStep (L : Laser) (ocl : Oracle) (mode : String)
    (power_mW : ℚ) : M Unit :=
  if mode = "continuous" then L.set_power_setpoint ocl power_mW
  else if mode = "modulation" then L.set_modulation_power_setpoint ocl power_mW
  else pure ()

/-- Model of `Laser.configure`: modulation flags first (when supplied), then the power
set point for the target mode, then the mode switch last. -/
def Laser.configure (L : Laser) (ocl : Oracle) (mode : String) (power_mW : ℚ)
    (digital_mod_enabled analog_mod_enabled : Option Bool) : M Unit := do
  L.digitalFlagStep ocl digital_mod_enabled
  L.analogFlagStep ocl analog_mod_enabled
  L.powerStep ocl mode power_mW
  L.set_mode ocl mode

/-- Python `self.port.close()`: releases the transport channel. -/
def portClose : M Unit := fun s => (Except.ok (), { s with closed := true })

/-- Model of `Laser.close`: turn emission off, then release the transport channel. -/
def Laser.close (L : Laser) (ocl : Oracle) : M Unit := do
  L.turn_off ocl
  portClose

/- ### Byte-level model of `Laser._send` -/

/-- Transport state at byte level: bytes written to the port and bytes
currently pending in the receive buffer. -/
structure SerialPort where
  written : List Char
  pending : List Char
  deriving DecidableEq, Repr

/-- Does the byte list contain the `"\r\n"` terminator sequence? -/
def hasCRLF : List Char → Bool
  | [] => false
  | [_] => false
  | c₁ :: c₂ :: rest => (c₁ == '\r' && c₂ == '\n') || hasCRLF (c₂ :: rest)

/-- pyserial `read_until(expected=b'\r\n')`: consume bytes up to and
including the first terminator occurrence; `none` when no terminator ever
arrives (the port has no read timeout, so the read never returns). -/
def readUntilCRLF : List Char → Option (List Char × List Char)
  | [] => none
  | [_] => none
  | c₁ :: c₂ :: rest =>
      if c₁ = '\r' ∧ c₂ = '\n' then some (['\r', '\n'], rest)
      else
        match readUntilCRLF (c₂ :: rest) with
        | some (taken, remaining) => some (c₁ :: taken, remaining)
        | none => none

/-- Is `c` one of the characters of Python `strip('\r\n')`'s argument? -/
def crlfChar (c : Char) : Bool := c == '\r' || c == '\n'

/-- Python `bytes.strip('\r\n')`: remove `'\r'`/`'\n'` characters from both
ends. -/
def pyStripCRLF (cs : List Char) : List Char :=
  ((cs.dropWhile crlfChar).reverse.dropWhile crlfChar).reverse

/-- Byte-level model of `Laser._send`: write `cmd + '\r\n'`, read until the
terminator, require `in_waiting == 0`, and return the reply with the
terminator stripped. -/
def sendBytes (cmd : String) (p : SerialPort) : Except Err String × SerialPort :=
  let p₁ : SerialPort := { p with written := p.written ++ cmd.data ++ ['\r', '\n'] }
  match readUntilCRLF p₁.pending with
  | none => (Except.error Err.blocked, p₁)
  | some (response, remaining) =>
      let p₂ : SerialPort := { p₁ with pending := remaining }
      if remaining.length ≠ 0 then (Except.error Err.assertionError, p₂)
      else (Except.ok (pyStripCRLF response).asString, p₂)

theorem readUntilCRLF_append (pre rest : List Char) (h : hasCRLF pre = false) :
    readUntilCRLF (pre ++ '\r' :: '\n' :: rest) = some (pre ++ ['\r', '\n'], rest) := by
  induction pre with
  | nil => simp [readUntilCRLF]
  | cons c pre ih =>
      cases pre with
      | nil =>
          have hc : ¬(c = '\r' ∧ '\r' = '\n') := by
            rintro ⟨-, h2⟩
            exact absurd h2 (by decide)
          simp [readUntilCRLF, hc]
      | cons c₂ pre₂ =>
          have hcc : ¬(c = '\r' ∧ c₂ = '\n') := by
            rintro ⟨h1, h2⟩
            subst h1; subst h2
            simp [hasCRLF] at h
          have h₂ : hasCRLF (c₂ :: pre₂) = false := by
            simp [hasCRLF] at h
            simp [hasCRLF, h.2]
          have := ih h₂
          simp only [List.cons_append] at this ⊢
          simp [readUntilCRLF, hcc, this]

theorem dropWhile_crlf_append (pre t : List Char)
    (hp : ∃ x ∈ pre, crlfChar x = false) :
    (pre ++ t).dropWhile crlfChar = pre.dropWhile crlfChar ++ t := by
  induction pre with
  | nil => simp at hp
  | cons c pre ih =>
      by_cases hc : crlfChar c = true
      · have hp2 : ∃ x ∈ pre, crlfChar x = false := by
          rcases hp with ⟨x, hx, hxf⟩
          rcases List.mem_cons.mp hx with rfl | hx2
          · rw [hc] at hxf; cases hxf
          · exact ⟨x, hx2, hxf⟩
        simp [List.dropWhile_cons, hc, ih hp2]
      · simp only [Bool.not_eq_true] at hc
        simp [List.dropWhile_cons, hc]

theorem dropWhile_crlf_all_append (cs t : List Char)
    (hcs : ∀ x ∈ cs, crlfChar x = true) :
    (cs ++ t).dropWhile crlfChar = t.dropWhile crlfChar := by
  induction cs with
  | nil => rfl
  | cons c cs ih =>
      have hc : crlfChar c = true := hcs c (List.mem_cons_self c cs)
      have hcs2 : ∀ x ∈ cs, crlfChar x = true :=
        fun x hx => hcs x (List.mem_cons_of_mem c hx)
      simp [List.dropWhile_cons, hc, ih hcs2]

theorem pyStripCRLF_append_crlf (pre : List Char) :
    pyStripCRLF (pre ++ ['\r', '\n']) = pyStripCRLF pre := by
  by_cases hall : ∀ x ∈ pre, crlfChar x = true
  · have hpre : pre.dropWhile crlfChar = [] := List.dropWhile_eq_nil_iff.mpr hall
    unfold pyStripCRLF
    rw [dropWhile_crlf_all_append pre ['\r', '\n'] hall, hpre]
    decide
  · push_neg at hall
    rcases hall with ⟨x, hx, hxf⟩
    have hp : ∃ y ∈ pre, crlfChar y = false :=
      ⟨x, hx, by revert hxf; cases crlfChar x <;> simp⟩
    have hn : crlfChar '\n' = true := by decide
    have hr : crlfChar '\r' = true := by decide
    unfold pyStripCRLF
    rw [dropWhile_crlf_append pre ['\r', '\n'] hp, List.reverse_append]
    have hrev : (['\r', '\n'] : List Char).reverse = ['\n', '\r'] := by decide
    rw [hrev]
    simp [List.dropWhile_cons, hn, hr]

/- ### Run lemmas: each method's outcome as a function of the oracle replies -/

theorem ite_raise_pure_apply {α : Type} (b : Bool) (e : Err) (v : α) (s : S) :
    (if b then pyRaise e else pure v : M α) s =
      ((if b then Except.error e else Except.ok v), s) := by
  cases b <;> simp

theorem is_interlock_open_run (L : Laser) (ocl : Oracle) (s : S) {n : Int}
    (hr : parseInt? (ocl (s.hist ++ ["ilk?"])) = some n)
    (hn : n ∈ ([0, 1] : List Int)) :
    L.is_interlock_open ocl s =
      ((if L.very_verbose then Except.error Err.typeError else Except.ok n),
       { s with hist := s.hist ++ ["ilk?"] }) := by
  have h1 : L.send ocl "ilk?" s =
      (Except.ok (ocl (s.hist ++ ["ilk?"])), { s with hist := s.hist ++ ["ilk?"] }) :=
    Laser.send_apply L ocl "ilk?" s
  simp only [Laser.is_interlock_open, M.bind_ok h1,
    M.bind_ok (pyInt_ok _ hr), M.bind_apply, pyAssert_apply, if_pos hn,
    ite_raise_pure_apply]

theorem get_on_off_state_run (L : Laser) (ocl : Oracle) (s : S) {n : Int}
    (hr : parseInt? (ocl (s.hist ++ ["l?"])) = some n)
    (hn : n ∈ ([0, 1] : List Int)) :
    L.get_on_off_state ocl s =
      (Except.ok (if n = 0 then "OFF" else "ON"),
       { s with hist := s.hist ++ ["l?"] }) := by
  have h1 : L.send ocl "l?" s =
      (Except.ok (ocl (s.hist ++ ["l?"])), { s with hist := s.hist ++ ["l?"] }) :=
    Laser.send_apply L ocl "l?" s
  simp only [Laser.get_on_off_state, M.bind_ok h1,
    M.bind_ok (pyInt_ok _ hr), M.bind_apply, pyAssert_apply, if_pos hn,
    M.pure_apply]

theorem get_state_run (L : Laser) (ocl : Oracle) (s : S) {n : Int}
    (hr : parseInt? (ocl (s.hist ++ ["gom?"])) = some n)
    (hn : n ∈ ([0, 1, 2, 3, 4, 5, 6] : List Int)) :
    L.get_state ocl s =
      ((if L.very_verbose then Except.error Err.nameError
        else Except.ok (stateName n)),
       { s with hist := s.hist ++ ["gom?"] }) := by
  have h1 : L.send ocl "gom?" s =
      (Except.ok (ocl (s.hist ++ ["gom?"])), { s with hist := s.hist ++ ["gom?"] }) :=
    Laser.send_apply L ocl "gom?" s
  simp only [Laser.get_state, M.bind_ok h1,
    M.bind_ok (pyInt_ok _ hr), M.bind_apply, pyAssert_apply, if_pos hn,
    ite_raise_pure_apply]

/- ### Shared concrete fixtures for witnesses -/

/-- An empty starting state: nothing sent, port open. -/
def s0 : S := ⟨[], false⟩

/-- A handle with verbose logging only. -/
def L0 : Laser := ⟨785, 100, true, false⟩

/-- A handle with `very_verbose=True`. -/
def Lvv : Laser := ⟨785, 100, true, true⟩

/-- A device whose interlock reads open and that acknowledges everything. -/
def oclIlkOpen : Oracle := fun h =>
  match h.getLast? with
  | some "ilk?" => "1"
  | _ => "OK"

/-- A device reporting fault code 3 (interlock error). -/
def oclFault3 : Oracle := fun _ => "3"

/- ### Claim theorems -/

/-- Claim C1: whenever the interlock query `ilk?` reports 1 (Open), both
`turn_on` and `run_autostart` raise before sending the emission-enable
(`l1`) or autostart (`@cob1`) command: the transaction history is extended
by the `ilk?` query only, so no enable transaction is performed. -/
theorem turn_on_autostart_blocked_by_open_interlock (L : Laser) (ocl : Oracle)
    (s : S) (h : ocl (s.hist ++ ["ilk?"]) = "1") :
    (∃ e, L.turn_on ocl s =
      (Except.error e, { s with hist := s.hist ++ ["ilk?"] })) ∧
    (∃ e, L.run_autostart ocl s =
      (Except.error e, { s with hist := s.hist ++ ["ilk?"] })) := by
  have hr : parseInt? (ocl (s.hist ++ ["ilk?"])) = some 1 := by rw [h]; decide
  have hio := is_interlock_open_run L ocl s hr (by decide)
  cases hvv : L.very_verbose with
  | true =>
      simp only [hvv, if_true] at hio
      exact ⟨⟨Err.typeError, by simp only [Laser.turn_on, M.bind_err hio]⟩,
             ⟨Err.typeError, by simp only [Laser.run_autostart, M.bind_err hio]⟩⟩
  | false =>
      simp only [hvv, if_false] at hio
      refine ⟨⟨Err.runtimeError "Could not turn on laser diode", ?_⟩,
              ⟨Err.runtimeError "Could not turn on laser diode", ?_⟩⟩
      · simp only [Laser.turn_on, M.bind_ok hio]
        simp
      · simp only [Laser.run_autostart, M.bind_ok hio]
        simp

/-- Witness for C1 at a concrete device whose `ilk?` reply is `1`. -/
theorem turn_on_autostart_blocked_by_open_interlock_witness :
    (∃ e, L0.turn_on oclIlkOpen s0 =
      (Except.error e, { s0 with hist := s0.hist ++ ["ilk?"] })) ∧
    (∃ e, L0.run_autostart oclIlkOpen s0 =
      (Except.error e, { s0 with hist := s0.hist ++ ["ilk?"] })) :=
  turn_on_autostart_blocked_by_open_interlock L0 oclIlkOpen s0 rfl

/-- Claim C4 (code side): `get_fault` decodes the `f?` reply against the
finite set `{"0","1","3","4"}`, raising on anything else, but on success it
returns `()` (Python `None`) — the decoded fault code never reaches the
caller. -/
theorem get_fault_swallows_fault_code (L : Laser) (ocl : Oracle) (s : S) :
    (ocl (s.hist ++ ["f?"]) ∈ (["0", "1", "3", "4"] : List String) →
      L.get_fault ocl s = (Except.ok (), { s with hist := s.hist ++ ["f?"] })) ∧
    (ocl (s.hist ++ ["f?"]) ∉ (["0", "1", "3", "4"] : List String) →
      L.get_fault ocl s =
        (Except.error Err.assertionError, { s with hist := s.hist ++ ["f?"] })) := by
  have h1 : L.send ocl "f?" s =
      (Except.ok (ocl (s.hist ++ ["f?"])), { s with hist := s.hist ++ ["f?"] }) :=
    Laser.send_apply L ocl "f?" s
  constructor <;> intro hm
  · simp only [Laser.get_fault, M.bind_ok h1, M.bind_apply, pyAssert_apply,
      if_pos hm, M.pure_apply]
  · simp only [Laser.get_fault, M.bind_ok h1, M.bind_apply, pyAssert_apply,
      if_neg hm]

/-- Witness for C4: a device reporting fault code 3 — `get_fault` succeeds
yet hands back only `()`. -/
theorem get_fault_swallows_fault_code_witness :
    L0.get_fault oclFault3 s0 = (Except.ok (), { s0 with hist := s0.hist ++ ["f?"] }) :=
  (get_fault_swallows_fault_code L0 oclFault3 s0).1 (by decide)

/-- Claim C7: out-of-range power arguments (`power_mW ≤ 0` or
`power_mW > max_power_mW`) make both power setters fail with the local
range assertion, with the transaction history untouched — nothing is
written to the transport. -/
theorem setpoint_range_check_blocks_send (L : Laser) (ocl : Oracle) (s : S)
    (p : ℚ) (h : p ≤ 0 ∨ L.max_power_mW < p) :
    L.set_power_setpoint ocl p s = (Except.error Err.assertionError, s) ∧
    L.set_modulation_power_setpoint ocl p s =
      (Except.error Err.assertionError, s) := by
  have hcond : ¬(0 < p ∧ p ≤ L.max_power_mW) := by
    rcases h with h | h
    · exact fun hc => absurd hc.1 (not_lt.mpr h)
    · exact fun hc => absurd hc.2 (not_le.mpr h)
  constructor
  · simp only [Laser.set_power_setpoint, M.bind_apply, pyAssert_apply,
      if_neg hcond]
  · simp only [Laser.set_modulation_power_setpoint, M.bind_apply,
      pyAssert_apply, if_neg hcond]

/-- Witness for C7 at `power_mW = -1`. -/
theorem setpoint_range_check_blocks_send_witness :
    L0.set_power_setpoint oclIlkOpen (-1) s0 =
      (Except.error Err.assertionError, s0) ∧
    L0.set_modulation_power_setpoint oclIlkOpen (-1) s0 =
      (Except.error Err.assertionError, s0) :=
  setpoint_range_check_blocks_send L0 oclIlkOpen s0 (-1) (Or.inl (by norm_num))

theorem get_state_err_of_vv (L : Laser) (hvv : L.very_verbose = true)
    (ocl : Oracle) (s : S) :
    ∃ e, L.get_state ocl s =
      (Except.error e, { s with hist := s.hist ++ ["gom?"] }) := by
  have h1 : L.send ocl "gom?" s =
      (Except.ok (ocl (s.hist ++ ["gom?"])), { s with hist := s.hist ++ ["gom?"] }) :=
    Laser.send_apply L ocl "gom?" s
  cases hp : parseInt? (ocl (s.hist ++ ["gom?"])) with
  | none =>
      exact ⟨Err.valueError,
        by simp only [Laser.get_state, M.bind_ok h1, M.bind_err (pyInt_fail _ hp)]⟩
  | some n =>
      by_cases hn : n ∈ ([0, 1, 2, 3, 4, 5, 6] : List Int)
      · have hrun := get_state_run L ocl s hp hn
        simp only [hvv, if_true] at hrun
        exact ⟨Err.nameError, hrun⟩
      · exact ⟨Err.assertionError, by
          simp only [Laser.get_state, M.bind_ok h1, M.bind_ok (pyInt_ok _ hp),
            M.bind_apply, pyAssert_apply, if_neg hn]⟩

theorem is_interlock_open_err_of_vv (L : Laser) (hvv : L.very_verbose = true)
    (ocl : Oracle) (s : S) :
    ∃ e, L.is_interlock_open ocl s =
      (Except.error e, { s with hist := s.hist ++ ["ilk?"] }) := by
  have h1 : L.send ocl "ilk?" s =
      (Except.ok (ocl (s.hist ++ ["ilk?"])), { s with hist := s.hist ++ ["ilk?"] }) :=
    Laser.send_apply L ocl "ilk?" s
  cases hp : parseInt? (ocl (s.hist ++ ["ilk?"])) with
  | none =>
      exact ⟨Err.valueError,
        by simp only [Laser.is_interlock_open, M.bind_ok h1, M.bind_err (pyInt_fail _ hp)]⟩
  | some n =>
      by_cases hn : n ∈ ([0, 1] : List Int)
      · have hrun := is_interlock_open_run L ocl s hp hn
        simp only [hvv, if_true] at hrun
        exact ⟨Err.typeError, hrun⟩
      · exact ⟨Err.assertionError, by
          simp only [Laser.is_interlock_open, M.bind_ok h1, M.bind_ok (pyInt_ok _ hp),
            M.bind_apply, pyAssert_apply, if_neg hn]⟩

/-- Claim C10: with `very_verbose=True`, `get_state` always raises (its log
statement references the undefined name `mode`) and `is_interlock_open`
always raises (its log format string has one conversion specifier but a
two-element argument tuple), whatever the device replies; consequently
`turn_on` and `run_autostart` — which begin with the interlock check —
also always fail. -/
theorem very_verbose_logging_always_raises (L : Laser)
    (hvv : L.very_verbose = true) (ocl : Oracle) (s : S) :
    (∃ e s₂, L.get_state ocl s = (Except.error e, s₂)) ∧
    (∃ e s₂, L.is_interlock_open ocl s = (Except.error e, s₂)) ∧
    (∃ e s₂, L.turn_on ocl s = (Except.error e, s₂)) ∧
    (∃ e s₂, L.run_autostart ocl s = (Except.error e, s₂)) := by
  obtain ⟨e₁, h₁⟩ := get_state_err_of_vv L hvv ocl s
  obtain ⟨e₂, h₂⟩ := is_interlock_open_err_of_vv L hvv ocl s
  exact ⟨⟨_, _, h₁⟩, ⟨_, _, h₂⟩,
    ⟨e₂, ⟨s.hist ++ ["ilk?"], s.closed⟩, by simp only [Laser.turn_on, M.bind_err h₂]⟩,
    ⟨e₂, ⟨s.hist ++ ["ilk?"], s.closed⟩, by simp only [Laser.run_autostart, M.bind_err h₂]⟩⟩

/-- Witness for C10 at a concrete all-`1` device. -/
theorem very_verbose_logging_always_raises_witness :
    (∃ e s₂, Lvv.get_state oclIlkOpen s0 = (Except.error e, s₂)) ∧
    (∃ e s₂, Lvv.is_interlock_open oclIlkOpen s0 = (Except.error e, s₂)) ∧
    (∃ e s₂, Lvv.turn_on oclIlkOpen s0 = (Except.error e, s₂)) ∧
    (∃ e s₂, Lvv.run_autostart oclIlkOpen s0 = (Except.error e, s₂)) :=
  very_verbose_logging_always_raises Lvv rfl oclIlkOpen s0

/-- Claim C5: the byte-level transaction primitive writes the command bytes
followed by `CR LF`, reads up to and including the first `CR LF` in the
receive buffer, fails the `in_waiting == 0` assertion whenever bytes remain
pending after the read, and on success returns the reply with the
terminator stripped. -/
theorem send_frames_reads_and_strips (cmd : String) (pre rest : List Char)
    (p : SerialPort) (hpre : hasCRLF pre = false)
    (hpend : p.pending = pre ++ '\r' :: '\n' :: rest) :
    (sendBytes cmd p).2.written = p.written ++ cmd.data ++ ['\r', '\n'] ∧
    (rest ≠ [] → (sendBytes cmd p).1 = Except.error Err.assertionError) ∧
    (rest = [] → (sendBytes cmd p).1 = Except.ok (pyStripCRLF pre).asString) := by
  have hread : readUntilCRLF (pre ++ '\r' :: '\n' :: rest) =
      some (pre ++ ['\r', '\n'], rest) := readUntilCRLF_append pre rest hpre
  by_cases hrest : rest = []
  · subst hrest
    simp [sendBytes, hpend, hread, pyStripCRLF_append_crlf]
  · simp [sendBytes, hpend, hread, hrest, List.length_eq_zero]

/-- Witness for C5: a clean `OK` reply with an empty buffer afterwards. -/
theorem send_frames_reads_and_strips_witness :
    (sendBytes "l?" ⟨[], ['O', 'K', '\r', '\n']⟩).2.written =
      [] ++ "l?".data ++ ['\r', '\n'] ∧
    (([] : List Char) ≠ [] →
      (sendBytes "l?" ⟨[], ['O', 'K', '\r', '\n']⟩).1 =
        Except.error Err.assertionError) ∧
    (([] : List Char) = [] →
      (sendBytes "l?" ⟨[], ['O', 'K', '\r', '\n']⟩).1 =
        Except.ok (pyStripCRLF ['O', 'K']).asString) :=
  send_frames_reads_and_strips "l?" ['O', 'K'] [] ⟨[], ['O', 'K', '\r', '\n']⟩
    (by decide) rfl

/- ### Closed-flag preservation (needed for the shutdown claim) -/

theorem pyInt_state (r : String) (s : S) : (pyInt r s).2 = s := by
  unfold pyInt; split <;> rfl

theorem M.bind_closed {α β : Type} {m : M α} {f : α → M β}
    (hm : ∀ s, ((m s).2).closed = s.closed)
    (hf : ∀ a s, ((f a s).2).closed = s.closed) (s : S) :
    (((m >>= f) s).2).closed = s.closed := by
  rw [M.bind_apply]
  have hms := hm s
  rcases hmr : m s with ⟨r, s₂⟩
  rw [hmr] at hms
  cases r with
  | error e => simpa using hms
  | ok a => simpa using (hf a s₂).trans hms

theorem get_on_off_state_closed (L : Laser) (ocl : Oracle) (s : S) :
    ((L.get_on_off_state ocl s).2).closed = s.closed := by
  unfold Laser.get_on_off_state
  refine M.bind_closed (fun s => rfl) ?_ s
  intro r s₂
  refine M.bind_closed (fun s => by rw [pyInt_state]) ?_ s₂
  intro n s₃
  refine M.bind_closed (fun s => rfl) ?_ s₃
  intro u s₄
  rfl

theorem turn_off_closed (L : Laser) (ocl : Oracle) (s : S) :
    ((L.turn_off ocl s).2).closed = s.closed := by
  unfold Laser.turn_off
  refine M.bind_closed (fun s => rfl) ?_ s
  intro answer s₂
  by_cases h : answer = "OK"
  · rw [if_neg (by simp [h])]
    refine M.bind_closed (fun s => get_on_off_state_closed L ocl s) ?_ s₂
    intro st s₃
    rfl
  · rw [if_pos h]
    rfl

/-- Claim C8: `close` first runs `turn_off` and only then releases the port:
when `turn_off` fails, `close` propagates that very failure and the port is
left unreleased (the closed flag is unchanged); when `turn_off` succeeds,
`close` succeeds and the port is released. -/
theorem close_turns_off_then_releases (L : Laser) (ocl : Oracle) (s : S) :
    (∀ e s₂, L.turn_off ocl s = (Except.error e, s₂) →
      L.close ocl s = (Except.error e, s₂) ∧ s₂.closed = s.closed) ∧
    (∀ s₂, L.turn_off ocl s = (Except.ok (), s₂) →
      L.close ocl s = (Except.ok (), { s₂ with closed := true })) := by
  constructor
  · intro e s₂ h
    refine ⟨by simp only [Laser.close, M.bind_err h], ?_⟩
    have hc := turn_off_closed L ocl s
    rw [h] at hc
    exact hc
  · intro s₂ h
    simp only [Laser.close, M.bind_ok h]
    rfl

/-- A device that rejects every command. -/
def oclReject : Oracle := fun _ => "Syntax error"

/-- A device that acknowledges commands and reports emission off. -/
def oclEmissionOff : Oracle := fun h =>
  match h.getLast? with
  | some "l?" => "0"
  | _ => "OK"

/-- Witness for C8: a rejected `l0` leaves the port unreleased; a clean
`turn_off` lets `close` release it. -/
theorem close_turns_off_then_releases_witness :
    (L0.close oclReject s0 =
      (Except.error (Err.runtimeError "Could not disable laser emission"),
        ⟨["l0"], false⟩) ∧
      (⟨["l0"], false⟩ : S).closed = s0.closed) ∧
    L0.close oclEmissionOff s0 = (Except.ok (), ⟨["l0", "l?"], true⟩) :=
  ⟨(close_turns_off_then_releases L0 oclReject s0).1
      (Err.runtimeError "Could not disable laser emission") ⟨["l0"], false⟩
      rfl,
   (close_turns_off_then_releases L0 oclEmissionOff s0).2
      ⟨["l0", "l?"], false⟩ rfl⟩

/-- Claim C9: `configure` with a mode outside
`{"continuous", "modulation"}` still applies any supplied modulation-flag
transactions, sets no power set point, and then fails on `set_mode`'s mode
assertion before any mode command is sent; the already-applied flag
transactions are not rolled back (the final state is exactly the state the
flag steps produced). -/
theorem configure_invalid_mode_flags_stick (L : Laser) (ocl : Oracle) (s : S)
    (p : ℚ) (dig ana : Option Bool) (mode : String)
    (h1 : mode ≠ "continuous") (h2 : mode ≠ "modulation") :
    (∀ s₁ s₂, L.digitalFlagStep ocl dig s = (Except.ok (), s₁) →
      L.analogFlagStep ocl ana s₁ = (Except.ok (), s₂) →
      L.configure ocl mode p dig ana s = (Except.error Err.assertionError, s₂)) ∧
    (∀ e s₁, L.digitalFlagStep ocl dig s = (Except.error e, s₁) →
      L.configure ocl mode p dig ana s = (Except.error e, s₁)) ∧
    (∀ e s₁ s₂, L.digitalFlagStep ocl dig s = (Except.ok (), s₁) →
      L.analogFlagStep ocl ana s₁ = (Except.error e, s₂) →
      L.configure ocl mode p dig ana s = (Except.error e, s₂)) := by
  have hpow : L.powerStep ocl mode p = pure () := by
    unfold Laser.powerStep
    rw [if_neg h1, if_neg h2]
  have hmode : ¬(mode ∈ (["continuous", "modulation"] : List String)) := by
    intro hmem
    rcases List.mem_cons.mp hmem with h | h
    · exact h1 h
    · rcases List.mem_cons.mp h with h | h
      · exact h2 h
      · simp at h
  refine ⟨?_, ?_, ?_⟩
  · intro s₁ s₂ hd ha
    simp only [Laser.configure, M.bind_ok hd, M.bind_ok ha, hpow,
      M.bind_ok (M.pure_apply () s₂), Laser.set_mode, M.bind_apply,
      pyAssert_apply, if_neg hmode]
  · intro e s₁ hd
    simp only [Laser.configure, M.bind_err hd]
  · intro e s₁ s₂ hd ha
    simp only [Laser.configure, M.bind_ok hd, M.bind_err ha]

/-- A device that acknowledges everything and reads back the digital flag
as enabled. -/
def oclDigOn : Oracle := fun h =>
  match h.getLast? with
  | some "gdmes?" => "1"
  | _ => "OK"

/-- Witness for C9 at `mode="cw"` with a supplied digital flag. -/
theorem configure_invalid_mode_flags_stick_witness :
    L0.configure oclDigOn "cw" 5 (some true) none s0 =
      (Except.error Err.assertionError, ⟨["sdmes 1", "gdmes?"], false⟩) :=
  (configure_invalid_mode_flags_stick L0 oclDigOn s0 5 (some true) none "cw"
      (by decide) (by decide)).1
    ⟨["sdmes 1", "gdmes?"], false⟩ ⟨["sdmes 1", "gdmes?"], false⟩
    rfl rfl

/-- Claim C6: a `configure` call succeeds exactly when its four stages
succeed in sequence — digital-flag transaction (when supplied), then
analog-flag transaction (when supplied), then the power set point matching
the target mode, then the mode switch — each threading the transaction
history of the previous one. -/
theorem configure_flags_power_mode_order (L : Laser) (ocl : Oracle) (s : S)
    (p : ℚ) (dig ana : Option Bool) (mode : String) (s₄ : S) :
    L.configure ocl mode p dig ana s = (Except.ok (), s₄) ↔
      ∃ s₁ s₂ s₃,
        L.digitalFlagStep ocl dig s = (Except.ok (), s₁) ∧
        L.analogFlagStep ocl ana s₁ = (Except.ok (), s₂) ∧
        L.powerStep ocl mode p s₂ = (Except.ok (), s₃) ∧
        L.set_mode ocl mode s₃ = (Except.ok (), s₄) := by
  constructor
  · intro h
    unfold Laser.configure at h
    rcases hd : L.digitalFlagStep ocl dig s with ⟨rd, s₁⟩
    cases rd with
    | error e =>
        rw [M.bind_err hd] at h
        exact absurd h (by simp)
    | ok u =>
        obtain ⟨⟩ := u
        simp only [M.bind_ok hd] at h
        rcases ha : L.analogFlagStep ocl ana s₁ with ⟨ra, s₂⟩
        cases ra with
        | error e =>
            rw [M.bind_err ha] at h
            exact absurd h (by simp)
        | ok u =>
            obtain ⟨⟩ := u
            simp only [M.bind_ok ha] at h
            rcases hp : L.powerStep ocl mode p s₂ with ⟨rp, s₃⟩
            cases rp with
            | error e =>
                rw [M.bind_err hp] at h
                exact absurd h (by simp)
            | ok u =>
                obtain ⟨⟩ := u
                simp only [M.bind_ok hp] at h
                exact ⟨s₁, s₂, s₃, rfl, ha, hp, h⟩
  · rintro ⟨s₁, s₂, s₃, hd, ha, hp, hm⟩
    simp only [Laser.configure, M.bind_ok hd, M.bind_ok ha, M.bind_ok hp, hm]

/-- The device of the spec's `configure` example: emitting, in Modulation
state, flags reading back as requested, modulation set point 10.0 mW. -/
def oclC6 : Oracle := fun h =>
  match h.getLast? with
  | some "gdmes?" => "1"
  | some "games?" => "0"
  | some "glmp?" => "10.0"
  | some "l?" => "1"
  | some "gom?" => "4"
  | _ => "OK"

theorem fmtFixed_one_ten : fmtFixed 1 (10 : ℚ) = "10.0" := by
  have h : round ((10 : ℚ) * (10 : ℚ) ^ (1 : ℕ)) = 100 :=
    round_rat_eq _ _ (by norm_num) (by norm_num)
  simp only [fmtFixed]
  rw [h]
  decide

theorem parseFloat_ten : parseFloat? "10.0" = some (10 : ℚ) := by
  have hp : parseFloat? "10.0" =
      some (((100 : ℕ) : ℚ) / (10 : ℚ) ^ (1 : ℕ)) := rfl
  rw [hp]
  norm_num

theorem modulation_setpoint_run_ten :
    L0.set_modulation_power_setpoint oclC6 10
      ⟨["sdmes 1", "gdmes?", "sames 0", "games?"], false⟩ =
      (Except.ok (),
        ⟨["sdmes 1", "gdmes?", "sames 0", "games?", "slmp 10.0", "glmp?"],
         false⟩) := by
  have hrange : (0 : ℚ) < 10 ∧ (10 : ℚ) ≤ L0.max_power_mW :=
    ⟨by norm_num, by norm_num [L0]⟩
  have h1 : pyAssert ((0 : ℚ) < 10 ∧ (10 : ℚ) ≤ L0.max_power_mW)
      ⟨["sdmes 1", "gdmes?", "sames 0", "games?"], false⟩ =
      (Except.ok (), ⟨["sdmes 1", "gdmes?", "sames 0", "games?"], false⟩) := by
    rw [pyAssert_apply, if_pos hrange]
  unfold Laser.set_modulation_power_setpoint
  rw [fmtFixed_one_ten, show ("slmp " ++ "10.0" : String) = "slmp 10.0" from rfl]
  simp only [M.bind_ok h1]
  have h2 : L0.send oclC6 "slmp 10.0"
      ⟨["sdmes 1", "gdmes?", "sames 0", "games?"], false⟩ =
      (Except.ok "OK",
       ⟨["sdmes 1", "gdmes?", "sames 0", "games?", "slmp 10.0"], false⟩) := rfl
  simp only [M.bind_ok h2]
  rw [if_neg (by simp)]
  have h3 : L0.get_modulation_power_setpoint oclC6
      ⟨["sdmes 1", "gdmes?", "sames 0", "games?", "slmp 10.0"], false⟩ =
      (Except.ok (10 : ℚ),
       ⟨["sdmes 1", "gdmes?", "sames 0", "games?", "slmp 10.0", "glmp?"],
        false⟩) := by
    unfold Laser.get_modulation_power_setpoint
    have hs : L0.send oclC6 "glmp?"
        ⟨["sdmes 1", "gdmes?", "sames 0", "games?", "slmp 10.0"], false⟩ =
        (Except.ok "10.0",
         ⟨["sdmes 1", "gdmes?", "sames 0", "games?", "slmp 10.0", "glmp?"],
          false⟩) := rfl
    simp only [M.bind_ok hs, M.bind_ok (pyFloat_ok _ parseFloat_ten),
      M.pure_apply]
  simp only [M.bind_ok h3]
  rw [pyAssert_apply, if_pos rfl]

/-- Witness for C6: the spec's own example — `configure('modulation', 10,
digital_mod_enabled=True, analog_mod_enabled=False)` on an emitting device
produces exactly the wire sequence `sdmes 1`, `gdmes?`, `sames 0`,
`games?`, `slmp 10.0`, `glmp?`, `em`, `l?`, `gom?`. -/
theorem configure_flags_power_mode_order_witness :
    L0.configure oclC6 "modulation" 10 (some true) (some false) s0 =
      (Except.ok (),
       ⟨["sdmes 1", "gdmes?", "sames 0", "games?", "slmp 10.0", "glmp?",
         "em", "l?", "gom?"], false⟩) :=
  (configure_flags_power_mode_order L0 oclC6 s0 10 (some true) (some false)
      "modulation" _).mpr
    ⟨⟨["sdmes 1", "gdmes?"], false⟩,
     ⟨["sdmes 1", "gdmes?", "sames 0", "games?"], false⟩,
     ⟨["sdmes 1", "gdmes?", "sames 0", "games?", "slmp 10.0", "glmp?"], false⟩,
     rfl, rfl, modulation_setpoint_run_ten, rfl⟩

/-- An emitting device that lands in On/Off Modulation (gom? code 3). -/
def oclOnOffMod : Oracle := fun h =>
  match h.getLast? with
  | some "l?" => "1"
  | some "gom?" => "3"
  | _ => "OK"

/-- An emitting device that lands in Modulation (gom? code 4). -/
def oclMod4 : Oracle := fun h =>
  match h.getLast? with
  | some "l?" => "1"
  | some "gom?" => "4"
  | _ => "OK"

/-- Counterexample to C3 as stated: with emission ON and the device
reporting On/Off Modulation (a Modulation-family state, `gom?` code 3),
`set_mode('modulation')` does not accept the state — the confirmation
`get_state()[1:] == mode[1:]` compares `"n/Off Modulation"` with
`"odulation"` and raises `AssertionError`. -/
theorem set_mode_rejects_onoff_modulation :
    L0.set_mode oclOnOffMod "modulation" s0 =
      (Except.error Err.assertionError, ⟨["em", "l?", "gom?"], false⟩) := rfl

/-- Claim C3 (amended): `set_mode` sends the mode command (`cp`/`em`); when
the emission query reports OFF, no `gom?` confirmation is performed; when
it reports ON, the confirmation accepts exactly the state whose name minus
its first character equals the mode minus its first character — only
Continuous (code 2) for `"continuous"` and only Modulation (code 4) for
`"modulation"`; in particular On/Off Modulation (code 3) is rejected. -/
theorem set_mode_confirms_exact_state (L : Laser) (hvv : L.very_verbose = false)
    (ocl : Oracle) (s : S) (mode : String)
    (hm : mode = "continuous" ∨ mode = "modulation")
    (hok : ocl (s.hist ++ [mode2command mode]) = "OK") :
    (ocl (s.hist ++ [mode2command mode] ++ ["l?"]) = "0" →
      L.set_mode ocl mode s =
        (Except.ok (), ⟨s.hist ++ [mode2command mode] ++ ["l?"], s.closed⟩)) ∧
    (∀ c : Int, c ∈ ([0, 1, 2, 3, 4, 5, 6] : List Int) →
      ocl (s.hist ++ [mode2command mode] ++ ["l?"]) = "1" →
      parseInt? (ocl (s.hist ++ [mode2command mode] ++ ["l?"] ++ ["gom?"])) = some c →
      (L.set_mode ocl mode s =
          (Except.ok (),
           ⟨s.hist ++ [mode2command mode] ++ ["l?"] ++ ["gom?"], s.closed⟩)
        ↔ (mode = "continuous" ∧ c = 2) ∨ (mode = "modulation" ∧ c = 4))) := by
  have hmem : mode ∈ (["continuous", "modulation"] : List String) := by
    rcases hm with rfl | rfl <;> decide
  have h0 : pyAssert (mode ∈ (["continuous", "modulation"] : List String)) s =
      (Except.ok (), s) := by rw [pyAssert_apply, if_pos hmem]
  have h1 : L.send ocl (mode2command mode) s =
      (Except.ok "OK", ⟨s.hist ++ [mode2command mode], s.closed⟩) := by
    rw [Laser.send_apply, hok]
  constructor
  · intro hoff
    have hr : parseInt? (ocl ((⟨s.hist ++ [mode2command mode], s.closed⟩ : S).hist
        ++ ["l?"])) = some 0 := by
      show parseInt? (ocl (s.hist ++ [mode2command mode] ++ ["l?"])) = some 0
      rw [hoff]; decide
    have h2 := get_on_off_state_run L ocl
      ⟨s.hist ++ [mode2command mode], s.closed⟩ hr (by decide)
    simp only [show ((0 : Int) = 0) = True by simp, if_true] at h2
    unfold Laser.set_mode
    simp only [M.bind_ok h0, M.bind_ok h1]
    rw [if_neg (by simp)]
    simp only [M.bind_ok h2]
    rw [if_neg (by simp)]
    rfl
  · intro c hc hon hgom
    have hr : parseInt? (ocl ((⟨s.hist ++ [mode2command mode], s.closed⟩ : S).hist
        ++ ["l?"])) = some 1 := by
      show parseInt? (ocl (s.hist ++ [mode2command mode] ++ ["l?"])) = some 1
      rw [hon]; decide
    have h2 := get_on_off_state_run L ocl
      ⟨s.hist ++ [mode2command mode], s.closed⟩ hr (by decide)
    simp only [show ((1 : Int) = 0) = False by simp, if_false] at h2
    have hrg : parseInt? (ocl ((⟨s.hist ++ [mode2command mode] ++ ["l?"], s.closed⟩ : S).hist
        ++ ["gom?"])) = some c := hgom
    have h3 := get_state_run L ocl
      ⟨s.hist ++ [mode2command mode] ++ ["l?"], s.closed⟩ hrg hc
    rw [hvv] at h3
    simp only [Bool.false_eq_true, if_false] at h3
    have hiff2 : pyTail (stateName c) = pyTail mode ↔
        ((mode = "continuous" ∧ c = 2) ∨ (mode = "modulation" ∧ c = 4)) := by
      rcases hm with rfl | rfl <;> (fin_cases hc <;> decide)
    unfold Laser.set_mode
    simp only [M.bind_ok h0, M.bind_ok h1]
    rw [if_neg (by simp)]
    simp only [M.bind_ok h2]
    rw [if_pos trivial]
    simp only [M.bind_ok h3]
    rw [pyAssert_apply]
    by_cases hcond : pyTail (stateName c) = pyTail mode
    · rw [if_pos hcond]
      simp only [hiff2.mp hcond, iff_true]
    · rw [if_neg hcond]
      constructor
      · intro hcontra
        exact absurd hcontra (by simp)
      · intro hcase
        exact absurd (hiff2.mpr hcase) hcond

/-- Witness for the amended C3: an emitting device in Modulation (code 4)
passes `set_mode('modulation')` confirmation. -/
theorem set_mode_confirms_exact_state_witness :
    L0.set_mode oclMod4 "modulation" s0 =
      (Except.ok (), ⟨["em", "l?", "gom?"], false⟩) :=
  ((set_mode_confirms_exact_state L0 rfl oclMod4 s0 "modulation"
      (Or.inr rfl) rfl).2 4 (by decide) rfl rfl).mpr (Or.inr ⟨rfl, rfl⟩)

/- ### Round-trip tolerance lemmas -/

theorem pyFloat_fail {r : String} (s : S) (h : parseFloat? r = none) :
    pyFloat r s = (Except.error Err.valueError, s) := by simp [pyFloat, h]

theorem abs_sub_roundTo (prec : ℕ) (x : ℚ) :
    |x - roundTo prec x| ≤ 1 / (2 * 10 ^ prec) := by
  unfold roundTo
  have hpow : (0 : ℚ) < (10 : ℚ) ^ prec := by positivity
  have h := abs_sub_round (x * (10 : ℚ) ^ prec)
  have heq : x - ((round (x * (10 : ℚ) ^ prec) : ℤ) : ℚ) / (10 : ℚ) ^ prec =
      (x * (10 : ℚ) ^ prec - ((round (x * (10 : ℚ) ^ prec) : ℤ) : ℚ)) /
        (10 : ℚ) ^ prec := by
    field_simp
  have hhalf : (1 : ℚ) / (2 * 10 ^ prec) = (1 / 2) / (10 : ℚ) ^ prec := by
    rw [div_div]
  rw [heq, abs_div, abs_of_pos hpow, hhalf]
  exact div_le_div_of_nonneg_right h hpow.le

theorem roundTo_eq_abs_le {a b : ℚ} (h : roundTo 4 a = roundTo 4 b) :
    |b - a| ≤ 1 / 10000 := by
  have ha := abs_sub_roundTo 4 a
  have hb := abs_sub_roundTo 4 b
  have key : b - a = (b - roundTo 4 b) + (roundTo 4 a - a) := by rw [h]; ring
  calc |b - a| ≤ |b - roundTo 4 b| + |roundTo 4 a - a| := by
        rw [key]; exact abs_add _ _
    _ ≤ 1 / (2 * 10 ^ 4) + 1 / (2 * 10 ^ 4) :=
        add_le_add hb (by rw [abs_sub_comm]; exact ha)
    _ = 1 / 10000 := by norm_num

theorem get_power_setpoint_run (L : Laser) (ocl : Oracle) (s : S) {q : ℚ}
    (hr : parseFloat? (ocl (s.hist ++ ["p?"])) = some q) :
    L.get_power_setpoint ocl s =
      (Except.ok (q * 1000), ⟨s.hist ++ ["p?"], s.closed⟩) := by
  unfold Laser.get_power_setpoint
  simp only [M.bind_ok (Laser.send_apply L ocl "p?" s),
    M.bind_ok (pyFloat_ok _ hr), M.pure_apply]

theorem get_power_setpoint_fail (L : Laser) (ocl : Oracle) (s : S)
    (hr : parseFloat? (ocl (s.hist ++ ["p?"])) = none) :
    L.get_power_setpoint ocl s =
      (Except.error Err.valueError, ⟨s.hist ++ ["p?"], s.closed⟩) := by
  unfold Laser.get_power_setpoint
  simp only [M.bind_ok (Laser.send_apply L ocl "p?" s),
    M.bind_err (pyFloat_fail _ hr)]

theorem get_modulation_power_setpoint_run (L : Laser) (ocl : Oracle) (s : S)
    {q : ℚ} (hr : parseFloat? (ocl (s.hist ++ ["glmp?"])) = some q) :
    L.get_modulation_power_setpoint ocl s =
      (Except.ok q, ⟨s.hist ++ ["glmp?"], s.closed⟩) := by
  unfold Laser.get_modulation_power_setpoint
  simp only [M.bind_ok (Laser.send_apply L ocl "glmp?" s),
    M.bind_ok (pyFloat_ok _ hr), M.pure_apply]

theorem get_modulation_power_setpoint_fail (L : Laser) (ocl : Oracle) (s : S)
    (hr : parseFloat? (ocl (s.hist ++ ["glmp?"])) = none) :
    L.get_modulation_power_setpoint ocl s =
      (Except.error Err.valueError, ⟨s.hist ++ ["glmp?"], s.closed⟩) := by
  unfold Laser.get_modulation_power_setpoint
  simp only [M.bind_ok (Laser.send_apply L ocl "glmp?" s),
    M.bind_err (pyFloat_fail _ hr)]

/-- Claim C2: a successful `set_power_setpoint(power_mW)` sends
`p <watts>` (the mW value divided by 1000, formatted `%0.4f`) and, provided
the device set point is stable between the confirming read and a
subsequent `get_power_setpoint()`, that getter returns the wire value in W
times 1000, within `1e-4` mW of `power_mW`; analogously a successful
`set_modulation_power_setpoint` sends `slmp <mW>` (formatted `%0.1f`,
no conversion) and `get_modulation_power_setpoint` returns the wire value
directly, within `1e-4` mW of `power_mW`. -/
theorem setpoint_roundtrip_within_tolerance (L : Laser) (ocl : Oracle)
    (s : S) (p : ℚ) :
    (∀ s₂, L.set_power_setpoint ocl p s = (Except.ok (), s₂) →
      s₂ = ⟨s.hist ++ ["p " ++ fmtFixed 4 (p / 1000)] ++ ["p?"], s.closed⟩ ∧
      (ocl (s₂.hist ++ ["p?"]) = ocl s₂.hist →
        ∃ qw, parseFloat? (ocl (s₂.hist ++ ["p?"])) = some qw ∧
          L.get_power_setpoint ocl s₂ =
            (Except.ok (qw * 1000), ⟨s₂.hist ++ ["p?"], s₂.closed⟩) ∧
          |qw * 1000 - p| ≤ 1 / 10000)) ∧
    (∀ s₂, L.set_modulation_power_setpoint ocl p s = (Except.ok (), s₂) →
      s₂ = ⟨s.hist ++ ["slmp " ++ fmtFixed 1 p] ++ ["glmp?"], s.closed⟩ ∧
      (ocl (s₂.hist ++ ["glmp?"]) = ocl s₂.hist →
        ∃ qm, parseFloat? (ocl (s₂.hist ++ ["glmp?"])) = some qm ∧
          L.get_modulation_power_setpoint ocl s₂ =
            (Except.ok qm, ⟨s₂.hist ++ ["glmp?"], s₂.closed⟩) ∧
          |qm - p| ≤ 1 / 10000)) := by
  constructor
  · intro s₂ h
    by_cases hrange : 0 < p ∧ p ≤ L.max_power_mW
    · have hpa : pyAssert (0 < p ∧ p ≤ L.max_power_mW) s =
          (Except.ok (), s) := by rw [pyAssert_apply, if_pos hrange]
      unfold Laser.set_power_setpoint at h
      simp only [M.bind_ok hpa,
        M.bind_ok (Laser.send_apply L ocl ("p " ++ fmtFixed 4 (p / 1000)) s)] at h
      by_cases hok : ocl (s.hist ++ ["p " ++ fmtFixed 4 (p / 1000)]) = "OK"
      · rw [if_neg (by simp [hok])] at h
        cases hq : parseFloat?
            (ocl (s.hist ++ ["p " ++ fmtFixed 4 (p / 1000)] ++ ["p?"])) with
        | none =>
            have hget := get_power_setpoint_fail L ocl
              ⟨s.hist ++ ["p " ++ fmtFixed 4 (p / 1000)], s.closed⟩ hq
            simp only [M.bind_err hget] at h
            exact absurd h (by simp)
        | some qw =>
            have hget := get_power_setpoint_run L ocl
              ⟨s.hist ++ ["p " ++ fmtFixed 4 (p / 1000)], s.closed⟩ hq
            simp only [M.bind_ok hget] at h
            by_cases hround : roundTo 4 p = roundTo 4 (qw * 1000)
            · rw [pyAssert_apply, if_pos hround] at h
              have hs2 : s₂ =
                  ⟨s.hist ++ ["p " ++ fmtFixed 4 (p / 1000)] ++ ["p?"],
                   s.closed⟩ := (congrArg Prod.snd h).symm
              refine ⟨hs2, ?_⟩
              subst hs2
              intro hstab
              refine ⟨qw, ?_, ?_, roundTo_eq_abs_le hround⟩
              · rw [hstab]; exact hq
              · exact get_power_setpoint_run L ocl _ (by rw [hstab]; exact hq)
            · rw [pyAssert_apply, if_neg hround] at h
              exact absurd h (by simp)
      · rw [if_pos hok] at h
        simp only [pyRaise_apply] at h
        exact absurd h (by simp)
    · have hpa : pyAssert (0 < p ∧ p ≤ L.max_power_mW) s =
          (Except.error Err.assertionError, s) := by
        rw [pyAssert_apply, if_neg hrange]
      unfold Laser.set_power_setpoint at h
      simp only [M.bind_err hpa] at h
      exact absurd h (by simp)
  · intro s₂ h
    by_cases hrange : 0 < p ∧ p ≤ L.max_power_mW
    · have hpa : pyAssert (0 < p ∧ p ≤ L.max_power_mW) s =
          (Except.ok (), s) := by rw [pyAssert_apply, if_pos hrange]
      unfold Laser.set_modulation_power_setpoint at h
      simp only [M.bind_ok hpa,
        M.bind_ok (Laser.send_apply L ocl ("slmp " ++ fmtFixed 1 p) s)] at h
      by_cases hok : ocl (s.hist ++ ["slmp " ++ fmtFixed 1 p]) = "OK"
      · rw [if_neg (by simp [hok])] at h
        cases hq : parseFloat?
            (ocl (s.hist ++ ["slmp " ++ fmtFixed 1 p] ++ ["glmp?"])) with
        | none =>
            have hget := get_modulation_power_setpoint_fail L ocl
              ⟨s.hist ++ ["slmp " ++ fmtFixed 1 p], s.closed⟩ hq
            simp only [M.bind_err hget] at h
            exact absurd h (by simp)
        | some qm =>
            have hget := get_modulation_power_setpoint_run L ocl
              ⟨s.hist ++ ["slmp " ++ fmtFixed 1 p], s.closed⟩ hq
            simp only [M.bind_ok hget] at h
            by_cases hround : roundTo 4 p = roundTo 4 qm
            · rw [pyAssert_apply, if_pos hround] at h
              have hs2 : s₂ =
                  ⟨s.hist ++ ["slmp " ++ fmtFixed 1 p] ++ ["glmp?"],
                   s.closed⟩ := (congrArg Prod.snd h).symm
              refine ⟨hs2, ?_⟩
              subst hs2
              intro hstab
              refine ⟨qm, ?_, ?_, roundTo_eq_abs_le hround⟩
              · rw [hstab]; exact hq
              · exact get_modulation_power_setpoint_run L ocl _
                  (by rw [hstab]; exact hq)
            · rw [pyAssert_apply, if_neg hround] at h
              exact absurd h (by simp)
      · rw [if_pos hok] at h
        simp only [pyRaise_apply] at h
        exact absurd h (by simp)
    · have hpa : pyAssert (0 < p ∧ p ≤ L.max_power_mW) s =
          (Except.error Err.assertionError, s) := by
        rw [pyAssert_apply, if_neg hrange]
      unfold Laser.set_modulation_power_setpoint at h
      simp only [M.bind_err hpa] at h
      exact absurd h (by simp)

/-- A device holding 0.001 W continuous / 1.0 mW modulation set points. -/
def oclPw : Oracle := fun h =>
  match h.getLast? with
  | some "p?" => "0.0010"
  | some "glmp?" => "1.0"
  | _ => "OK"

theorem fmtFixed_four_thousandth : fmtFixed 4 ((1 : ℚ) / 1000) = "0.0010" := by
  have h : round ((1 : ℚ) / 1000 * (10 : ℚ) ^ (4 : ℕ)) = 10 :=
    round_rat_eq _ _ (by norm_num) (by norm_num)
  simp only [fmtFixed]
  rw [h]
  decide

theorem parseFloat_thousandth : parseFloat? "0.0010" = some ((1 : ℚ) / 1000) := by
  have h : parseFloat? "0.0010" =
      some (((10 : ℕ) : ℚ) / (10 : ℚ) ^ (4 : ℕ)) := rfl
  rw [h]
  norm_num

theorem fmtFixed_one_one : fmtFixed 1 (1 : ℚ) = "1.0" := by
  have h : round ((1 : ℚ) * (10 : ℚ) ^ (1 : ℕ)) = 10 :=
    round_rat_eq _ _ (by norm_num) (by norm_num)
  simp only [fmtFixed]
  rw [h]
  decide

theorem parseFloat_one : parseFloat? "1.0" = some (1 : ℚ) := by
  have h : parseFloat? "1.0" =
      some (((10 : ℕ) : ℚ) / (10 : ℚ) ^ (1 : ℕ)) := rfl
  rw [h]
  norm_num

theorem set_power_run_one :
    L0.set_power_setpoint oclPw 1 s0 =
      (Except.ok (), ⟨["p 0.0010", "p?"], false⟩) := by
  have hrange : (0 : ℚ) < 1 ∧ (1 : ℚ) ≤ L0.max_power_mW :=
    ⟨by norm_num, by norm_num [L0]⟩
  have h1 : pyAssert ((0 : ℚ) < 1 ∧ (1 : ℚ) ≤ L0.max_power_mW) s0 =
      (Except.ok (), s0) := by rw [pyAssert_apply, if_pos hrange]
  unfold Laser.set_power_setpoint
  rw [fmtFixed_four_thousandth,
    show ("p " ++ "0.0010" : String) = "p 0.0010" from rfl]
  simp only [M.bind_ok h1]
  have h2 : L0.send oclPw "p 0.0010" s0 =
      (Except.ok "OK", ⟨["p 0.0010"], false⟩) := rfl
  simp only [M.bind_ok h2]
  rw [if_neg (by simp)]
  have hr : parseFloat? (oclPw ((["p 0.0010"] : List String) ++ ["p?"])) =
      some ((1 : ℚ) / 1000) := parseFloat_thousandth
  have h3 := get_power_setpoint_run L0 oclPw ⟨["p 0.0010"], false⟩ hr
  simp only [M.bind_ok h3]
  rw [pyAssert_apply, if_pos (by norm_num)]
  rfl

theorem set_mod_run_one :
    L0.set_modulation_power_setpoint oclPw 1 s0 =
      (Except.ok (), ⟨["slmp 1.0", "glmp?"], false⟩) := by
  have hrange : (0 : ℚ) < 1 ∧ (1 : ℚ) ≤ L0.max_power_mW :=
    ⟨by norm_num, by norm_num [L0]⟩
  have h1 : pyAssert ((0 : ℚ) < 1 ∧ (1 : ℚ) ≤ L0.max_power_mW) s0 =
      (Except.ok (), s0) := by rw [pyAssert_apply, if_pos hrange]
  unfold Laser.set_modulation_power_setpoint
  rw [fmtFixed_one_one, show ("slmp " ++ "1.0" : String) = "slmp 1.0" from rfl]
  simp only [M.bind_ok h1]
  have h2 : L0.send oclPw "slmp 1.0" s0 =
      (Except.ok "OK", ⟨["slmp 1.0"], false⟩) := rfl
  simp only [M.bind_ok h2]
  rw [if_neg (by simp)]
  have hr : parseFloat? (oclPw ((["slmp 1.0"] : List String) ++ ["glmp?"])) =
      some (1 : ℚ) := parseFloat_one
  have h3 := get_modulation_power_setpoint_run L0 oclPw ⟨["slmp 1.0"], false⟩ hr
  simp only [M.bind_ok h3]
  rw [pyAssert_apply, if_pos rfl]
  rfl

/-- Witness for C2: after `set_power_setpoint(1)` (wire: `p 0.0010`) and
`set_modulation_power_setpoint(1)` (wire: `slmp 1.0`) succeed, the
corresponding getters read back values within `1e-4` mW of 1. -/
theorem setpoint_roundtrip_within_tolerance_witness :
    (∃ qw, parseFloat? (oclPw ((["p 0.0010", "p?"] : List String) ++ ["p?"])) =
        some qw ∧
      L0.get_power_setpoint oclPw ⟨["p 0.0010", "p?"], false⟩ =
        (Except.ok (qw * 1000), ⟨["p 0.0010", "p?", "p?"], false⟩) ∧
      |qw * 1000 - 1| ≤ 1 / 10000) ∧
    (∃ qm, parseFloat?
        (oclPw ((["slmp 1.0", "glmp?"] : List String) ++ ["glmp?"])) =
        some qm ∧
      L0.get_modulation_power_setpoint oclPw ⟨["slmp 1.0", "glmp?"], false⟩ =
        (Except.ok qm, ⟨["slmp 1.0", "glmp?", "glmp?"], false⟩) ∧
      |qm - 1| ≤ 1 / 10000) :=
  ⟨((setpoint_roundtrip_within_tolerance L0 oclPw s0 1).1
      ⟨["p 0.0010", "p?"], false⟩ set_power_run_one).2 rfl,
   ((setpoint_roundtrip_within_tolerance L0 oclPw s0 1).2
      ⟨["slmp 1.0", "glmp?"], false⟩ set_mod_run_one).2 rfl⟩
